import Mathlib

/-!
Shallow embedding of the Chinese Bridge rules engine
(`internal/game/domain`: card.go, formation.go, trick.go, game_state.go).

Conventions of the embedding:
* Go `Suit`, `JokerType`, `FormationType`, `GamePhase`, `PlayerPosition` are
  small integer enums whose only constructed values are the named constants;
  they are modelled as inductive types.
* Go `Rank` is an `int` with constants `Two = 2 … Ace = 14`; it is modelled as
  `Nat` (the Go code only compares ranks, adds 1, and adds them to 900).
* Bid amounts and the contract are Go `int`s and are modelled as `Int`.
* Go methods returning `error` are modelled as functions returning the updated
  value together with a `Bool` success flag (`true` = nil error); this keeps
  any partial mutation that Go performs before returning an error.
* Go maps (`Trick.Plays`, the face-grouping map in `ValidateFormation`) are
  modelled as association lists in insertion order; the only facts proved
  about them (membership, error existence, sums) are iteration-order
  independent.
* `time.Time` fields (`CreatedAt`, …) and the `Scores` map (written only at
  construction) are omitted: no modelled operation reads them.
-/

namespace ChineseBridge

/-- Suit enum from card.go (`Spades = 0 … Diamonds = 3`). -/
inductive Suit where
  | spades | hearts | clubs | diamonds
deriving DecidableEq, Repr

/-- JokerType enum from card.go (`BigJoker = 0`, `SmallJoker = 1`). -/
inductive JokerType where
  | big | small
deriving DecidableEq, Repr

/-- Card struct from card.go.  `rank` is the Go `Rank` int (2 = Two … 14 = Ace). -/
structure Card where
  suit : Suit
  rank : Nat
  deckID : Nat
  isJoker : Bool
  jokerType : JokerType
deriving DecidableEq, Repr

/-- Go zero value of `Card` (`Suit` 0 = Spades, `Rank` 0, `JokerType` 0 = BigJoker). -/
def defaultCard : Card := ⟨.spades, 0, 0, false, .big⟩

instance : Inhabited Card := ⟨defaultCard⟩

/-- NewCard from card.go (unset `JokerType` keeps the Go zero value BigJoker). -/
def mkCard (suit : Suit) (rank : Nat) (deckID : Nat) : Card :=
  ⟨suit, rank, deckID, false, .big⟩

/-- NewJoker from card.go (unset `Suit`/`Rank` keep the Go zero values). -/
def mkJoker (jokerType : JokerType) (deckID : Nat) : Card :=
  ⟨.spades, 0, deckID, true, jokerType⟩

/-- Rank.GetPointValue from card.go (Five = 5, Ten = 10, King = 13). -/
def rankPointValue (r : Nat) : Nat :=
  if r = 5 then 5 else if r = 10 then 10 else if r = 13 then 10 else 0

/-- Card.GetPointValue from card.go. -/
def Card.getPointValue (c : Card) : Nat :=
  if c.isJoker then 0 else rankPointValue c.rank

/-- Card.IsEqual from card.go (identity including the deck tag). -/
def Card.isEqualCard (c other : Card) : Bool :=
  if c.isJoker && other.isJoker then c.jokerType = other.jokerType && c.deckID = other.deckID
  else if c.isJoker || other.isJoker then false
  else c.suit = other.suit && c.rank = other.rank && c.deckID = other.deckID

/-- Card.IsSameFace from card.go (face equality, deck tag ignored). -/
def Card.isSameFace (c other : Card) : Bool :=
  if c.isJoker && other.isJoker then c.jokerType = other.jokerType
  else if c.isJoker || other.isJoker then false
  else c.suit = other.suit && c.rank = other.rank

/-- Card.GetTrumpHierarchy from card.go. -/
def Card.getTrumpHierarchy (c : Card) (trumpSuit : Suit) : Nat :=
  if c.isJoker then
    match c.jokerType with
    | .big => 1000
    | .small => 999
  else if c.rank = 2 then
    if c.suit = trumpSuit then 998 else 997
  else if c.suit = trumpSuit then 900 + c.rank
  else 0

/-- Card.GetSuitHierarchy from card.go. -/
def Card.getSuitHierarchy (c : Card) : Nat :=
  if c.isJoker then 0 else c.rank

/-- NewDeck from card.go: for each deck tag 1, 2, all suits in order
Spades, Hearts, Clubs, Diamonds and ranks 2 … 14; then the four jokers. -/
def newDeck : List Card :=
  ([1, 2].flatMap fun deckID =>
    [Suit.spades, Suit.hearts, Suit.clubs, Suit.diamonds].flatMap fun suit =>
      ((List.range 13).map (· + 2)).map fun rank => mkCard suit rank deckID)
  ++ [1, 2].flatMap fun deckID => [mkJoker .big deckID, mkJoker .small deckID]

/-- Deck.Deal from card.go: errors when more cards are requested than remain,
otherwise returns the dealt prefix and the remaining deck. -/
def deal (cards : List Card) (count : Nat) : Option (List Card × List Card) :=
  if count > cards.length then none
  else some (cards.take count, cards.drop count)

/-- Trump rank table as the specification words it (section 4.2 / claim C6):
1000 Big Joker, 999 Small Joker, 998 trump-suit 2, 997 other 2,
900 + rank ordinal for other trump-suit cards, 0 for every other card. -/
def trumpRankSpec (c : Card) (trumpSuit : Suit) : Nat :=
  if c.isJoker = true ∧ c.jokerType = .big then 1000
  else if c.isJoker = true ∧ c.jokerType = .small then 999
  else if c.rank = 2 ∧ c.suit = trumpSuit then 998
  else if c.rank = 2 then 997
  else if c.suit = trumpSuit then 900 + c.rank
  else 0

/-- FormationType enum from formation.go. -/
inductive FormationType where
  | single | pair | tractor
deriving DecidableEq, Repr

/-- Formation struct from formation.go. -/
structure Formation where
  type : FormationType
  cards : List Card
  suit : Suit
deriving DecidableEq, Repr

/-- NewSingle from formation.go (a joker gets the default suit Spades). -/
def newSingle (card : Card) : Formation :=
  { type := .single, cards := [card],
    suit := if card.isJoker then .spades else card.suit }

/-- NewPair from formation.go. -/
def newPair (card1 card2 : Card) : Option Formation :=
  if card1.isSameFace card2 then
    some { type := .pair, cards := [card1, card2],
           suit := if card1.isJoker then .spades else card1.suit }
  else none

/-- First loop of NewTractor from formation.go: checks that every element is a
two-card same-face pair without jokers or 2s, collecting all cards and the
rank of each pair in order. -/
def checkTractorPairs : List (List Card) → Option (List Card × List Nat)
  | [] => some ([], [])
  | p :: rest =>
    match p with
    | [a, b] =>
      if ¬ a.isSameFace b then none
      else if a.isJoker || a.rank = 2 then none
      else
        match checkTractorPairs rest with
        | none => none
        | some (cs, rs) => some (a :: b :: cs, a.rank :: rs)
    | _ => none

/-- Insertion step of an ascending sort on ranks. -/
def insertSorted (x : Nat) : List Nat → List Nat
  | [] => [x]
  | y :: ys => if x ≤ y then x :: y :: ys else y :: insertSorted x ys

/-- Ascending sort; NewTractor sorts the pair ranks with sort.Slice before
the consecutiveness check. -/
def sortNat (l : List Nat) : List Nat := l.foldr insertSorted []

/-- Consecutiveness loop of NewTractor: each rank must be the previous plus 1. -/
def consecutiveRanks : List Nat → Bool
  | [] => true
  | [_] => true
  | a :: b :: rest => b = a + 1 && consecutiveRanks (b :: rest)

/-- Suit of `pairs[0][0]`, read by NewTractor after the per-pair checks. -/
def pairsFirstSuit : List (List Card) → Option Suit
  | (a :: _) :: _ => some a.suit
  | _ => none

/-- NewTractor from formation.go. -/
def newTractor (pairs : List (List Card)) (trumpSuit : Suit) : Option Formation :=
  if pairs.length < 2 then none
  else
    match checkTractorPairs pairs with
    | none => none
    | some (allCards, pairRanks) =>
      match pairsFirstSuit pairs with
      | none => none
      | some firstSuit =>
        if ¬ pairs.all (fun p => (p.headD defaultCard).suit = firstSuit) then none
        else if ¬ consecutiveRanks (sortNat pairRanks) then none
        else some { type := .tractor, cards := allCards, suit := firstSuit }

/-- Formation.IsValid from formation.go (tractor case only checks size parity;
the deeper tractor checks live in NewTractor / ValidateFormation). -/
def formationIsValid (f : Formation) : Bool :=
  match f.type with
  | .single => f.cards.length = 1
  | .pair => f.cards.length = 2 && (f.cards.getD 0 defaultCard).isSameFace (f.cards.getD 1 defaultCard)
  | .tractor => decide (4 ≤ f.cards.length) && f.cards.length % 2 = 0

/-- Formation.GetHighestCard from formation.go: fold keeping the card with the
greater trump hierarchy, ties broken by suit hierarchy (natural rank). -/
def getHighestCard (f : Formation) (trumpSuit : Suit) : Card :=
  match f.cards with
  | [] => defaultCard
  | c0 :: rest =>
    rest.foldl (fun highest c =>
      if c.getTrumpHierarchy trumpSuit > highest.getTrumpHierarchy trumpSuit then c
      else if c.getTrumpHierarchy trumpSuit = highest.getTrumpHierarchy trumpSuit
              ∧ c.getSuitHierarchy > highest.getSuitHierarchy then c
      else highest) c0

/-- Formation.GetPointValue from formation.go. -/
def formationPointValue (f : Formation) : Nat :=
  (f.cards.map Card.getPointValue).sum

/-- Formation.IsTrump from formation.go: some card has positive trump hierarchy. -/
def isTrumpFormation (f : Formation) (trumpSuit : Suit) : Bool :=
  f.cards.any (fun c => c.getTrumpHierarchy trumpSuit > 0)

/-- Formation.Compare from formation.go.  Positive means `f` wins.  The
`ledSuit` parameter exists in the Go signature but is never read. -/
def compareFormations (f other : Formation) (trumpSuit : Suit) (ledSuit : Suit) : Int :=
  if f.type ≠ other.type then 0
  else
    let fIsTrump := isTrumpFormation f trumpSuit
    let otherIsTrump := isTrumpFormation other trumpSuit
    if fIsTrump && !otherIsTrump then 1
    else if !fIsTrump && otherIsTrump then -1
    else
      let fH := (getHighestCard f trumpSuit).getTrumpHierarchy trumpSuit
      let oH := (getHighestCard other trumpSuit).getTrumpHierarchy trumpSuit
      if fH ≠ oH then (if fH > oH then 1 else -1)
      else
        let fS := (getHighestCard f trumpSuit).getSuitHierarchy
        let oS := (getHighestCard other trumpSuit).getSuitHierarchy
        if fS > oS then 1
        else if fS < oS then -1
        else 0

/-- Suit.String from card.go. -/
def suitName : Suit → String
  | .spades => "Spades"
  | .hearts => "Hearts"
  | .clubs => "Clubs"
  | .diamonds => "Diamonds"

/-- Rank.String from card.go (any other int renders as Unknown). -/
def rankName (r : Nat) : String :=
  if r = 2 then "2" else if r = 3 then "3" else if r = 4 then "4"
  else if r = 5 then "5" else if r = 6 then "6" else if r = 7 then "7"
  else if r = 8 then "8" else if r = 9 then "9" else if r = 10 then "10"
  else if r = 11 then "J" else if r = 12 then "Q" else if r = 13 then "K"
  else if r = 14 then "A" else "Unknown"

/-- JokerType.String from card.go. -/
def jokerName : JokerType → String
  | .big => "Big Joker"
  | .small => "Small Joker"

/-- Grouping key used by ValidateFormation.  The Go code uses the strings
`"joker_" ++ jokerName` and `suitName ++ "_" ++ rankName`; since no suit name
contains an underscore or equals `"joker"`, keeping the components apart in a
sum/pair has exactly the same collision behaviour as the concatenated string. -/
inductive FaceKey where
  | jk (name : String)
  | std (suit : String) (rank : String)
deriving DecidableEq, Repr

/-- Key of a card in the face-grouping map of ValidateFormation. -/
def faceKey (c : Card) : FaceKey :=
  if c.isJoker then .jk (jokerName c.jokerType)
  else .std (suitName c.suit) (rankName c.rank)

/-- Appends a card to its group, creating the group at the end if absent
(association-list model of the Go map built by appending). -/
def insertGroup (k : FaceKey) (c : Card) : List (FaceKey × List Card) → List (FaceKey × List Card)
  | [] => [(k, [c])]
  | (k2, g) :: rest =>
    if k2 = k then (k2, g ++ [c]) :: rest else (k2, g) :: insertGroup k c rest

/-- The face-grouping map of ValidateFormation, in first-seen key order. -/
def groupByFace (cards : List Card) : List (FaceKey × List Card) :=
  cards.foldl (fun acc c => insertGroup (faceKey c) c acc) []

/-- ValidateFormation from formation.go (`true` = nil error). -/
def validateFormation (cards : List Card) (formationType : FormationType) (trumpSuit : Suit) : Bool :=
  match formationType with
  | .single => cards.length = 1
  | .pair =>
    cards.length = 2 && (cards.getD 0 defaultCard).isSameFace (cards.getD 1 defaultCard)
  | .tractor =>
    if cards.length < 4 ∨ cards.length % 2 ≠ 0 then false
    else
      let groups := groupByFace cards
      if ¬ groups.all (fun g => g.2.length = 2) then false
      else (newTractor (groups.map (·.2)) trumpSuit).isSome

/-- Claim C6: for every card and every trump suit, `Card.GetTrumpHierarchy`
returns exactly the table of the specification: 1000 for the Big Joker, 999
for the Small Joker, 998 for the trump-suit 2, 997 for any other 2, 900 plus
the rank for any other trump-suit card, and 0 for every other card. -/
theorem getTrumpHierarchy_matches_spec (c : Card) (trumpSuit : Suit) :
    c.getTrumpHierarchy trumpSuit = trumpRankSpec c trumpSuit := by
  rcases c with ⟨s, r, d, j, jt⟩
  cases j <;> cases jt <;>
    simp [Card.getTrumpHierarchy, trumpRankSpec] <;>
    split_ifs <;> simp_all

/-- A card a tractor may not contain: a joker or a 2 (of any suit). -/
def badTractorCard (c : Card) : Prop := c.isJoker = true ∨ c.rank = 2

instance (c : Card) : Decidable (badTractorCard c) := by
  unfold badTractorCard; infer_instance

lemma isSameFace_bad {a b : Card} (h : a.isSameFace b = true)
    (hb : badTractorCard b) : badTractorCard a := by
  unfold Card.isSameFace at h
  unfold badTractorCard at hb ⊢
  cases hja : a.isJoker <;> cases hjb : b.isJoker <;> simp [hja, hjb] at h ⊢ <;> simp_all

lemma checkTractorPairs_eq_none {pairs : List (List Card)}
    (h : ∃ p ∈ pairs, ∃ c ∈ p, badTractorCard c) :
    checkTractorPairs pairs = none := by
  induction pairs with
  | nil => simp at h
  | cons p rest ih =>
    obtain ⟨q, hq, c, hc, hbad⟩ := h
    rcases List.mem_cons.mp hq with rfl | hq
    · rcases q with _ | ⟨a, _ | ⟨b, _ | ⟨d, t⟩⟩⟩
      · simp at hc
      · simp [checkTractorPairs]
      · have hab : c = a ∨ c = b := by simpa using hc
        by_cases hsf : a.isSameFace b
        · have ha : badTractorCard a := by
            rcases hab with rfl | rfl
            · exact hbad
            · exact isSameFace_bad hsf hbad
          unfold badTractorCard at ha
          rcases ha with ha | ha <;> simp [checkTractorPairs, hsf, ha]
        · simp [checkTractorPairs, hsf]
      · simp [checkTractorPairs]
    · have hrest := ih ⟨q, hq, c, hc, hbad⟩
      rcases p with _ | ⟨a, _ | ⟨b, _ | ⟨d, t⟩⟩⟩ <;>
        simp [checkTractorPairs, hrest]

lemma newTractor_eq_none {pairs : List (List Card)} (trumpSuit : Suit)
    (h : ∃ p ∈ pairs, ∃ c ∈ p, badTractorCard c) :
    newTractor pairs trumpSuit = none := by
  unfold newTractor
  by_cases hl : pairs.length < 2
  · simp [hl]
  · simp [hl, checkTractorPairs_eq_none h]

lemma mem_insertGroup_old {c' : Card} {acc : List (FaceKey × List Card)}
    (h : ∃ g ∈ acc, c' ∈ g.2) (k : FaceKey) (c : Card) :
    ∃ g ∈ insertGroup k c acc, c' ∈ g.2 := by
  induction acc with
  | nil => simp at h
  | cons e rest ih =>
    obtain ⟨g, hg, hc⟩ := h
    rcases e with ⟨k2, grp⟩
    by_cases hk : k2 = k
    · rcases List.mem_cons.mp hg with rfl | hg
      · exact ⟨(k2, grp ++ [c]), by simp [insertGroup, hk],
          by simp only [List.mem_append]; exact Or.inl hc⟩
      · exact ⟨g, by simp [insertGroup, hk, hg], hc⟩
    · rcases List.mem_cons.mp hg with rfl | hg
      · exact ⟨(k2, grp), by simp [insertGroup, hk], hc⟩
      · obtain ⟨g2, hg2, hc2⟩ := ih ⟨g, hg, hc⟩
        refine ⟨g2, ?_, hc2⟩
        simp only [insertGroup, hk, if_false, List.mem_cons]
        exact Or.inr hg2

lemma mem_insertGroup_self (k : FaceKey) (c : Card) (acc : List (FaceKey × List Card)) :
    ∃ g ∈ insertGroup k c acc, c ∈ g.2 := by
  induction acc with
  | nil => exact ⟨(k, [c]), by simp [insertGroup], by simp⟩
  | cons e rest ih =>
    rcases e with ⟨k2, grp⟩
    by_cases hk : k2 = k
    · exact ⟨(k2, grp ++ [c]), by simp [insertGroup, hk], by simp⟩
    · obtain ⟨g, hg, hc⟩ := ih
      refine ⟨g, ?_, hc⟩
      simp only [insertGroup, hk, if_false, List.mem_cons]
      exact Or.inr hg

lemma mem_groupByFace_aux {c : Card} :
    ∀ (cards : List Card) (acc : List (FaceKey × List Card)),
      (c ∈ cards ∨ ∃ g ∈ acc, c ∈ g.2) →
      ∃ g ∈ cards.foldl (fun a x => insertGroup (faceKey x) x a) acc, c ∈ g.2 := by
  intro cards
  induction cards with
  | nil =>
    intro acc h
    rcases h with h | h
    · simp at h
    · simpa using h
  | cons x rest ih =>
    intro acc h
    simp only [List.foldl_cons]
    apply ih
    rcases h with h | h
    · rcases List.mem_cons.mp h with rfl | h
      · exact Or.inr (mem_insertGroup_self _ _ _)
      · exact Or.inl h
    · exact Or.inr (mem_insertGroup_old h _ _)

lemma mem_groupByFace {c : Card} {cards : List Card} (h : c ∈ cards) :
    ∃ g ∈ groupByFace cards, c ∈ g.2 :=
  mem_groupByFace_aux cards [] (Or.inl h)

/-- Claim C9: for every pairs input containing a 2 or a joker anywhere,
`NewTractor` fails, and for every card set containing a 2 or a joker,
`ValidateFormation` with the Tractor kind fails — for every trump suit,
including when those cards are trump. -/
theorem tractor_rejects_twos_and_jokers
    (pairs : List (List Card)) (cards : List Card) (trumpSuit : Suit)
    (hp : ∃ p ∈ pairs, ∃ c ∈ p, badTractorCard c)
    (hc : ∃ c ∈ cards, badTractorCard c) :
    newTractor pairs trumpSuit = none ∧
    validateFormation cards .tractor trumpSuit = false := by
  refine ⟨newTractor_eq_none trumpSuit hp, ?_⟩
  unfold validateFormation
  by_cases hlen : cards.length < 4 ∨ cards.length % 2 ≠ 0
  · rw [if_pos hlen]
  · obtain ⟨c, hcc, hbad⟩ := hc
    obtain ⟨g, hg, hcg⟩ := mem_groupByFace hcc
    by_cases hall : (groupByFace cards).all (fun g => g.2.length = 2)
    · have hbadp : ∃ p ∈ (groupByFace cards).map (·.2), ∃ c2 ∈ p, badTractorCard c2 :=
        ⟨g.2, List.mem_map_of_mem _ hg, c, hcg, hbad⟩
      simp [hlen, hall, newTractor_eq_none trumpSuit hbadp]
    · simp [hlen, hall]

/-- Witness for C9: a pair of 2s with a pair of 3s (otherwise consecutive in
Hearts) is rejected by NewTractor even under Hearts trump, and the four
jokers are rejected by ValidateFormation as a tractor. -/
theorem tractor_rejects_twos_and_jokers_witness :
    newTractor [[mkCard .hearts 2 1, mkCard .hearts 2 2],
                [mkCard .hearts 3 1, mkCard .hearts 3 2]] .hearts = none ∧
    validateFormation [mkJoker .big 1, mkJoker .big 2,
                       mkJoker .small 1, mkJoker .small 2] .tractor .hearts = false :=
  tractor_rejects_twos_and_jokers _ _ .hearts (by decide) (by decide)

/-- PlayerPosition enum from game_state.go (`North = 0 … West = 3`). -/
inductive PlayerPosition where
  | north | east | south | west
deriving DecidableEq, Repr

/-- Integer value of a position. -/
def PlayerPosition.toNat : PlayerPosition → Nat
  | .north => 0
  | .east => 1
  | .south => 2
  | .west => 3

/-- Position with a given integer value mod 4. -/
def positionOfNat (n : Nat) : PlayerPosition :=
  match n % 4 with
  | 0 => .north
  | 1 => .east
  | 2 => .south
  | _ => .west

/-- PlayerPosition.GetNextPosition from game_state.go. -/
def PlayerPosition.next (p : PlayerPosition) : PlayerPosition :=
  positionOfNat (p.toNat + 1)

/-- PlayerPosition.GetPartnerPosition from game_state.go. -/
def PlayerPosition.partner (p : PlayerPosition) : PlayerPosition :=
  positionOfNat (p.toNat + 2)

/-- PlayerPosition.String from game_state.go. -/
def posString : PlayerPosition → String
  | .north => "North"
  | .east => "East"
  | .south => "South"
  | .west => "West"

/-- Trick struct from trick.go.  The `Plays` map is modelled as an
association list in insertion order (AddPlay inserts a position at most
once); `CreatedAt`/`CompletedAt` timestamps are omitted. -/
structure Trick where
  id : String
  leader : PlayerPosition
  plays : List (PlayerPosition × Formation)
  winner : String
  points : Nat
  trumpSuit : Option Suit
  ledSuit : Option Suit
  isComplete : Bool
deriving DecidableEq, Repr

/-- NewTrick from trick.go. -/
def newTrick (id : String) (leader : PlayerPosition) : Trick :=
  { id := id, leader := leader, plays := [], winner := "", points := 0,
    trumpSuit := none, ledSuit := none, isComplete := false }

/-- Lookup in the `Plays` map. -/
def lookupPlay : List (PlayerPosition × Formation) → PlayerPosition → Option Formation
  | [], _ => none
  | (q, f) :: rest, p => if q = p then some f else lookupPlay rest p

/-- Number of positions that have played, Go `len(t.Plays)` (keys are unique). -/
def countPlays (t : Trick) : Nat := t.plays.length

/-- Trick.validatePlay from trick.go: the leader may play anything, a follower
must only match the led formation type — the hand is never consulted, and a
play in a different suit is accepted (`return nil` in both branches). -/
def validatePlay (t : Trick) (position : PlayerPosition) (formation : Formation)
    (trumpSuit : Suit) : Bool :=
  if countPlays t = 0 then true
  else
    match lookupPlay t.plays t.leader with
    | none => false
    | some leaderFormation => formation.type = leaderFormation.type

/-- Trick.completeTrick from trick.go: fold over the three seats after the
leader, replacing the provisional winner whenever `Compare` is positive; Go
dereferences `*t.LedSuit`, which AddPlay has always set by this point, so the
`none` branch (a nil dereference in Go) is modelled as a no-op. -/
def completeTrick (t : Trick) (trumpSuit : Suit) : Trick :=
  if countPlays t ≠ 4 then t
  else
    match lookupPlay t.plays t.leader with
    | none => t
    | some leaderFormation =>
      match t.ledSuit with
      | none => t
      | some ledSuit =>
        let step := fun (acc : PlayerPosition × Formation) (pos : PlayerPosition) =>
          match lookupPlay t.plays pos with
          | some currentFormation =>
            if compareFormations currentFormation acc.2 trumpSuit ledSuit > 0 then
              (pos, currentFormation)
            else acc
          | none => acc
        let w := step (step (step (t.leader, leaderFormation)
                  t.leader.next) t.leader.next.next) t.leader.next.next.next
        let totalPoints := (t.plays.map (fun e => formationPointValue e.2)).sum
        { t with winner := posString w.1, points := totalPoints, isComplete := true }

/-- Trick.AddPlay from trick.go. -/
def addPlay (t : Trick) (position : PlayerPosition) (formation : Formation)
    (trumpSuit : Suit) : Trick × Bool :=
  if t.isComplete then (t, false)
  else if (lookupPlay t.plays position).isSome then (t, false)
  else if ¬ validatePlay t position formation trumpSuit then (t, false)
  else
    let t1 := { t with plays := t.plays ++ [(position, formation)],
                       trumpSuit := some trumpSuit }
    let t2 :=
      if countPlays t1 = 1 then
        { t1 with ledSuit := some (if isTrumpFormation formation trumpSuit
                                   then trumpSuit else formation.suit) }
      else t1
    let t3 := if countPlays t2 = 4 then completeTrick t2 trumpSuit else t2
    (t3, true)

/-- Trick.GetPlayOrder from trick.go. -/
def getPlayOrder (t : Trick) : List PlayerPosition :=
  [t.leader, t.leader.next, t.leader.next.next, t.leader.next.next.next]

/-- Trick.GetNextToPlay from trick.go. -/
def getNextToPlay (t : Trick) : Option PlayerPosition :=
  if t.isComplete then none
  else (getPlayOrder t).find? (fun p => (lookupPlay t.plays p).isNone)

/-- Trick.HasPlayerPlayed from trick.go. -/
def hasPlayerPlayed (t : Trick) (position : PlayerPosition) : Bool :=
  (lookupPlay t.plays position).isSome

/-- Trick.CanPlayerPlay from trick.go. -/
def canPlayerPlay (t : Trick) (position : PlayerPosition) : Bool :=
  if t.isComplete then false
  else getNextToPlay t = some position

/-- Trick.ValidateFormationAgainstTrick from trick.go (`true` = nil error). -/
def validateFormationAgainstTrick (t : Trick) (position : PlayerPosition)
    (formation : Formation) (playerHand : List Card) (trumpSuit : Suit) : Bool :=
  if t.isComplete then false
  else if hasPlayerPlayed t position then false
  else if ¬ canPlayerPlay t position then false
  else if ¬ formationIsValid formation then false
  else if ¬ formation.cards.all
      (fun c => playerHand.any (fun hc => hc.isEqualCard c)) then false
  else if countPlays t = 0 then true
  else validatePlay t position formation trumpSuit

/-- Effective suit of a card, as the specification words it (section 3):
trump counts as a single effective suit, any other card keeps its own suit.
The Go code has no such function; it is used here only to state claims. -/
def effectiveSuit (c : Card) (trumpSuit : Suit) : Suit :=
  if c.getTrumpHierarchy trumpSuit > 0 then trumpSuit else c.suit

/-- Trump suit Clubs in the C2 scenario. -/
def c2Trump : Suit := .clubs

/-- Leader plays the King of Spades. -/
def c2Lead : Formation := newSingle (mkCard .spades 13 1)

/-- East follows with the Ace of Hearts: off the led suit and not trump, a
sluff by the specification. -/
def c2Sluff : Formation := newSingle (mkCard .hearts 14 1)

/-- The trick of the C2 scenario, built through AddPlay. -/
def c2Trick : Trick :=
  (addPlay (addPlay (addPlay (addPlay (newTrick "t1" .north)
    .north c2Lead c2Trump).1
    .east c2Sluff c2Trump).1
    .south (newSingle (mkCard .spades 3 1)) c2Trump).1
    .west (newSingle (mkCard .spades 4 1)) c2Trump).1

/-- Claim C2 is false on the code: in a completed trick led with the King of
Spades (Clubs trump), East's Ace of Hearts is a non-trump play off the led
suit — a sluff that the specification says can never win — yet
`completeTrick` selects East as the winner, because `Formation.Compare`
never reads its led-suit argument and compares non-trump plays by natural
rank alone. -/
theorem sluff_wins_trick :
    c2Trick.isComplete = true ∧
    c2Trick.ledSuit = some .spades ∧
    isTrumpFormation c2Sluff c2Trump = false ∧
    effectiveSuit (mkCard .hearts 14 1) c2Trump = .hearts ∧
    c2Trick.winner = "East" ∧
    c2Trick.points = 10 := by decide

/-- The C3 scenario: North has led the King of Spades under Clubs trump. -/
def c3Trick : Trick :=
  (addPlay (newTrick "t2" .north) .north (newSingle (mkCard .spades 13 1)) .clubs).1

/-- East's hand in the C3 scenario: two Spades (enough to follow the led
single) and the 5 of Hearts. -/
def c3Hand : List Card :=
  [mkCard .spades 12 1, mkCard .spades 11 1, mkCard .hearts 5 1]

/-- East's proposed play in the C3 scenario: the off-suit 5 of Hearts. -/
def c3Play : Formation := newSingle (mkCard .hearts 5 1)

/-- Claim C3 is false on the code: East holds two cards of the led effective
suit (Spades, at least the led size 1), yet the off-suit 5 of Hearts passes
`ValidateFormationAgainstTrick` and is accepted and added by `AddPlay` —
`validatePlay` never consults the hand and returns nil for plays in a
different suit, so no `SuitFollowingViolated` rejection exists. -/
theorem offsuit_play_accepted_with_led_cards_in_hand :
    (c3Hand.filter (fun c => effectiveSuit c .clubs = .spades)).length = 2 ∧
    effectiveSuit (mkCard .hearts 5 1) .clubs = .hearts ∧
    validateFormationAgainstTrick c3Trick .east c3Play c3Hand .clubs = true ∧
    (addPlay c3Trick .east c3Play .clubs).2 = true ∧
    lookupPlay (addPlay c3Trick .east c3Play .clubs).1.plays .east = some c3Play := by
  decide

/-- GamePhase enum from game_state.go. -/
inductive GamePhase where
  | waiting | dealing | bidding | trumpDeclaration | kittyExchange | playing | ended
deriving DecidableEq, Repr

/-- Player struct from game_state.go. -/
structure Player where
  id : String
  name : String
  position : PlayerPosition
  hand : List Card
  hasPassed : Bool
deriving DecidableEq, Repr

/-- Go zero value of `Player`. -/
def defaultPlayer : Player := ⟨"", "", .north, [], false⟩

instance : Inhabited Player := ⟨defaultPlayer⟩

/-- Player.RemoveCard from game_state.go: removes the first hand card equal
to the given card, errors (`none`) when absent. -/
def removeCard : List Card → Card → Option (List Card)
  | [], _ => none
  | h :: rest, c =>
    if h.isEqualCard c then some rest
    else (removeCard rest c).map (h :: ·)

/-- Player.RemoveCards from game_state.go: removes the cards in order; on the
first failure it returns the error together with the hand as mutated so far
(the Go method has already removed the earlier cards in place). -/
def removeCards (hand : List Card) : List Card → List Card × Bool
  | [] => (hand, true)
  | c :: rest =>
    match removeCard hand c with
    | none => (hand, false)
    | some hand2 => removeCards hand2 rest

/-- Player.HasCard from game_state.go. -/
def hasCard (hand : List Card) (card : Card) : Bool :=
  hand.any (fun hc => hc.isEqualCard card)

/-- Player.HasCards from game_state.go. -/
def hasCards (hand : List Card) (cards : List Card) : Bool :=
  cards.all (hasCard hand)

/-- BidInfo struct from game_state.go. -/
structure BidInfo where
  playerID : String
  amount : Int
  isPassed : Bool
deriving DecidableEq, Repr

instance : Inhabited BidInfo := ⟨⟨"", 0, false⟩⟩

/-- GameState struct from game_state.go.  `Players` is a Go array of four
pointers, modelled as a list indexed by `PlayerPosition.toNat`;
`Scores` (written only at construction) and the timestamps are omitted. -/
structure GameState where
  id : String
  roomID : String
  phase : GamePhase
  players : List Player
  currentPlayerTurn : PlayerPosition
  declarer : Option PlayerPosition
  trumpSuit : Option Suit
  contract : Int
  currentBid : Int
  bidHistory : List BidInfo
  consecutivePasses : Nat
  currentTrick : Option Trick
  tricks : List Trick
  kitty : List Card
  winnerTeam : Option String
deriving DecidableEq, Repr

/-- GameState.GetPlayer from game_state.go: first player whose ID matches,
scanning the seats in order. -/
def findPlayer : List Player → String → Option Player
  | [], _ => none
  | p :: rest, playerID =>
    if p.id = playerID then some p else findPlayer rest playerID

/-- GameState.GetPlayerByPosition from game_state.go (the Go array always has
four entries; out-of-range reads cannot occur for the inductive positions). -/
def getPlayerByPosition (gs : GameState) (position : PlayerPosition) : Player :=
  gs.players.getD position.toNat defaultPlayer

/-- GameState.GetCurrentPlayer from game_state.go. -/
def getCurrentPlayer (gs : GameState) : Player :=
  getPlayerByPosition gs gs.currentPlayerTurn

/-- Store an updated player back at its seat (Go mutates through the array
pointer in place). -/
def setPlayer (gs : GameState) (position : PlayerPosition) (p : Player) : GameState :=
  { gs with players := gs.players.set position.toNat p }

/-- GameState.NextTurn from game_state.go. -/
def nextTurn (gs : GameState) : GameState :=
  { gs with currentPlayerTurn := gs.currentPlayerTurn.next }

/-- One player's share in GameState.DealCards: `gs.Players[i].AddCards(cards)`. -/
def giveCards (gs : GameState) (i : Nat) (cards : List Card) : GameState :=
  let p := gs.players.getD i defaultPlayer
  { gs with players := gs.players.set i { p with hand := p.hand ++ cards } }

/-- GameState.DealCards from game_state.go: 25 cards to each seat in order
off the top of the deck, the remaining 8 to the kitty, phase to Bidding. -/
def dealCards (gs : GameState) (deck : List Card) : GameState × Bool :=
  if gs.phase ≠ .waiting then (gs, false)
  else
    match deal deck 25 with
    | none => (gs, false)
    | some (c0, d1) =>
      match deal d1 25 with
      | none => (giveCards gs 0 c0, false)
      | some (c1, d2) =>
        match deal d2 25 with
        | none => (giveCards (giveCards gs 0 c0) 1 c1, false)
        | some (c2, d3) =>
          match deal d3 25 with
          | none => (giveCards (giveCards (giveCards gs 0 c0) 1 c1) 2 c2, false)
          | some (c3, d4) =>
            let gs4 := giveCards (giveCards (giveCards (giveCards gs 0 c0) 1 c1) 2 c2) 3 c3
            match deal d4 8 with
            | none => (gs4, false)
            | some (kittyCards, _) =>
              ({ gs4 with kitty := kittyCards, phase := .bidding }, true)

/-- GameState.PlaceBid from game_state.go (`true` = nil error). -/
def placeBid (gs : GameState) (playerID : String) (bidAmount : Int) : GameState × Bool :=
  if gs.phase ≠ .bidding then (gs, false)
  else
    let currentPlayer := getCurrentPlayer gs
    if currentPlayer.id ≠ playerID then (gs, false)
    else if currentPlayer.hasPassed then (gs, false)
    else if bidAmount < 95 ∨ bidAmount > 200 then (gs, false)
    else if bidAmount ≥ gs.currentBid then (gs, false)
    else if (gs.currentBid - bidAmount) % 5 ≠ 0 then (gs, false)
    else
      let gs1 := { gs with
        bidHistory := gs.bidHistory ++ [⟨playerID, bidAmount, false⟩],
        currentBid := bidAmount,
        consecutivePasses := 0 }
      (nextTurn gs1, true)

/-- Declarer search of GameState.PassBid: walk the bid history from the most
recent entry backwards (here: along the reversed history), stopping at the
first non-pass entry whose player ID resolves via GetPlayer (which reads
`gs.Players`, passed here as the list). -/
def scanDeclarer (players : List Player) : List BidInfo → Option (Player × Int)
  | [] => none
  | e :: rest =>
    if e.isPassed then scanDeclarer players rest
    else
      match findPlayer players e.playerID with
      | some p => some (p, e.amount)
      | none => scanDeclarer players rest

/-- GameState.PassBid from game_state.go (`true` = nil error). -/
def passBid (gs : GameState) (playerID : String) : GameState × Bool :=
  if gs.phase ≠ .bidding then (gs, false)
  else
    let currentPlayer := getCurrentPlayer gs
    if currentPlayer.id ≠ playerID then (gs, false)
    else if currentPlayer.hasPassed then (gs, false)
    else
      let gs1 := setPlayer gs gs.currentPlayerTurn { currentPlayer with hasPassed := true }
      let gs2 := { gs1 with
        bidHistory := gs1.bidHistory ++ [⟨playerID, 0, true⟩],
        consecutivePasses := gs1.consecutivePasses + 1 }
      if gs2.consecutivePasses ≥ 3 then
        match scanDeclarer gs2.players gs2.bidHistory.reverse with
        | some (declarerPlayer, amount) =>
          ({ gs2 with
              declarer := some declarerPlayer.position,
              contract := amount,
              phase := .trumpDeclaration,
              currentPlayerTurn := declarerPlayer.position }, true)
        | none => (gs2, true)
      else (nextTurn gs2, true)

/-- GameState.DeclareTrump from game_state.go (`true` = nil error). -/
def declareTrump (gs : GameState) (playerID : String) (trumpSuit : Suit) : GameState × Bool :=
  if gs.phase ≠ .trumpDeclaration then (gs, false)
  else
    match gs.declarer with
    | none => (gs, false)
    | some declarerPos =>
      let declarer := getPlayerByPosition gs declarerPos
      if declarer.id ≠ playerID then (gs, false)
      else ({ gs with trumpSuit := some trumpSuit, phase := .kittyExchange }, true)

/-- GameState.ExchangeKitty from game_state.go (`true` = nil error).
HasCards is checked against the hand before the kitty is appended; on a
RemoveCards failure the hand keeps the appended kitty and the removals made
so far, exactly as the Go method leaves it. -/
def exchangeKitty (gs : GameState) (playerID : String) (cardsToDiscard : List Card) :
    GameState × Bool :=
  if gs.phase ≠ .kittyExchange then (gs, false)
  else
    match gs.declarer with
    | none => (gs, false)
    | some declarerPos =>
      let declarer := getPlayerByPosition gs declarerPos
      if declarer.id ≠ playerID then (gs, false)
      else if cardsToDiscard.length ≠ 8 then (gs, false)
      else if ¬ hasCards declarer.hand cardsToDiscard then (gs, false)
      else
        let handWithKitty := declarer.hand ++ gs.kitty
        match h : removeCards handWithKitty cardsToDiscard with
        | (hand2, ok) =>
          let gs1 := setPlayer gs declarerPos { declarer with hand := hand2 }
          if ok then ({ gs1 with kitty := cardsToDiscard, phase := .playing }, true)
          else (gs1, false)

/-- GameState.CalculateFinalScore from game_state.go.  Note that it passes
`trick.Winner` — the seat name string written by `completeTrick` — to
GetPlayer, which looks players up by their ID. -/
def calculateFinalScore (gs : GameState) : GameState :=
  match gs.declarer with
  | none => gs
  | some declarerPos =>
    let defendersPoints := gs.tricks.foldl (fun acc trick =>
      match findPlayer gs.players trick.winner with
      | some winner =>
        if winner.position ≠ declarerPos ∧ winner.position ≠ declarerPos.partner
        then acc + trick.points else acc
      | none => acc) 0
    let defendersPoints2 :=
      match gs.tricks.getLast? with
      | none => defendersPoints
      | some lastTrick =>
        match findPlayer gs.players lastTrick.winner with
        | none => defendersPoints
        | some lastWinner =>
          let kittyPoints := (gs.kitty.map Card.getPointValue).sum
          if lastWinner.position ≠ declarerPos ∧ lastWinner.position ≠ declarerPos.partner
          then defendersPoints + kittyPoints else defendersPoints
    let winnerTeam := if (defendersPoints2 : Int) ≥ gs.contract then "defenders" else "declarer"
    { gs with winnerTeam := some winnerTeam, phase := .ended }

/-- Declarer hand in the C1 scenario: all 13 Spades and the Hearts 2 … K of
deck 1 — 25 cards, with the Ace of Spades present exactly once. -/
def c1Hand : List Card :=
  ((List.range 13).map (fun k => mkCard .spades (k + 2) 1)) ++
  ((List.range 12).map (fun k => mkCard .hearts (k + 2) 1))

/-- Kitty in the C1 scenario: Clubs 3 … 10 of deck 1. -/
def c1Kitty : List Card := (List.range 8).map (fun k => mkCard .clubs (k + 3) 1)

/-- Discard request in the C1 scenario: the Ace of Spades listed twice plus
six Hearts.  Every entry passes HasCards (the hand holds each card), but
RemoveCards fails on the second Ace. -/
def c1Discard : List Card :=
  [mkCard .spades 14 1, mkCard .spades 14 1,
   mkCard .hearts 2 1, mkCard .hearts 3 1, mkCard .hearts 4 1,
   mkCard .hearts 5 1, mkCard .hearts 6 1, mkCard .hearts 7 1]

/-- The C1 game state: kitty-exchange phase, North is declarer. -/
def c1GS : GameState :=
  { id := "g1", roomID := "r1", phase := .kittyExchange,
    players := [⟨"p0", "alice", .north, c1Hand, false⟩,
                ⟨"p1", "bob", .east, [], false⟩,
                ⟨"p2", "carol", .south, [], false⟩,
                ⟨"p3", "dave", .west, [], false⟩],
    currentPlayerTurn := .north, declarer := some .north,
    trumpSuit := some .hearts, contract := 95, currentBid := 95,
    bidHistory := [], consecutivePasses := 0, currentTrick := none,
    tricks := [], kitty := c1Kitty, winnerTeam := none }

/-- Claim C1 is false on the code: ExchangeKitty appends the kitty to the
declarer's hand before calling RemoveCards, and a discard list naming the
same card twice passes the HasCards pre-check yet makes RemoveCards fail
half-way — the command returns an error while the declarer's hand has
already been mutated (it keeps the kitty and loses one Ace), so state is
not left exactly as before on error. -/
theorem exchangeKitty_mutates_on_error :
    hasCards (getPlayerByPosition c1GS .north).hand c1Discard = true ∧
    c1Discard.length = 8 ∧
    (exchangeKitty c1GS "p0" c1Discard).2 = false ∧
    (getPlayerByPosition (exchangeKitty c1GS "p0" c1Discard).1 .north).hand
      ≠ (getPlayerByPosition c1GS .north).hand ∧
    (getPlayerByPosition (exchangeKitty c1GS "p0" c1Discard).1 .north).hand.length = 32 ∧
    (exchangeKitty c1GS "p0" c1Discard).1 ≠ c1GS := by decide

/-- Declarer hand in the C5 scenario: all 13 Diamonds and the Spades 2 … K
of deck 2 — 25 cards. -/
def c5Hand : List Card :=
  ((List.range 13).map (fun k => mkCard .diamonds (k + 2) 1)) ++
  ((List.range 12).map (fun k => mkCard .spades (k + 2) 2))

/-- Kitty in the C5 scenario: Hearts 3 … 10 of deck 2. -/
def c5Kitty : List Card := (List.range 8).map (fun k => mkCard .hearts (k + 3) 2)

/-- Discard request in the C5 scenario: seven hand cards plus one of the
original kitty cards (the 3 of Hearts of deck 2). -/
def c5Discard : List Card :=
  [mkCard .diamonds 2 1, mkCard .diamonds 3 1, mkCard .diamonds 4 1,
   mkCard .diamonds 5 1, mkCard .diamonds 6 1, mkCard .diamonds 7 1,
   mkCard .diamonds 8 1, mkCard .hearts 3 2]

/-- The C5 game state: kitty-exchange phase, North is declarer. -/
def c5GS : GameState :=
  { id := "g5", roomID := "r5", phase := .kittyExchange,
    players := [⟨"p0", "alice", .north, c5Hand, false⟩,
                ⟨"p1", "bob", .east, [], false⟩,
                ⟨"p2", "carol", .south, [], false⟩,
                ⟨"p3", "dave", .west, [], false⟩],
    currentPlayerTurn := .north, declarer := some .north,
    trumpSuit := some .spades, contract := 100, currentBid := 100,
    bidHistory := [], consecutivePasses := 0, currentTrick := none,
    tricks := [], kitty := c5Kitty, winnerTeam := none }

/-- Claim C5 is false on the code: every discarded card is in the declarer's
hand or among the original kitty cards, yet ExchangeKitty fails — HasCards
is checked against the 25-card hand before the kitty is appended, so burying
an original kitty card is always rejected and the state is left unchanged
instead of moving to Playing. -/
theorem exchangeKitty_rejects_original_kitty_card :
    c5Discard.length = 8 ∧
    hasCards ((getPlayerByPosition c5GS .north).hand ++ c5GS.kitty) c5Discard = true ∧
    (exchangeKitty c5GS "p0" c5Discard).2 = false ∧
    (exchangeKitty c5GS "p0" c5Discard).1 = c5GS := by decide

/-- Seat that won a trick, as the specification reads it: the seat whose name
`completeTrick` wrote into the `Winner` field.  (Spec-side helper for C4.) -/
def winnerSeat (t : Trick) : Option PlayerPosition :=
  [PlayerPosition.north, .east, .south, .west].find? (fun p => posString p == t.winner)

/-- Modelled from the spec (claim C4): the sum of the points captured in
exactly the tricks whose winning seat is neither the declarer nor the
declarer's partner. -/
def specDefendersPoints (gs : GameState) (declarerPos : PlayerPosition) : Nat :=
  ((gs.tricks.filter (fun t =>
      match winnerSeat t with
      | some w => decide (w ≠ declarerPos ∧ w ≠ declarerPos.partner)
      | none => false)).map (fun t => t.points)).sum

/-- Modelled from the spec (claim C4): defenders total including the final
kitty, awarded iff the last trick's winning seat is a defender. -/
def specDefendersTotal (gs : GameState) (declarerPos : PlayerPosition) : Nat :=
  specDefendersPoints gs declarerPos +
  (match gs.tricks.getLast? with
   | none => 0
   | some lastTrick =>
     match winnerSeat lastTrick with
     | some w =>
       if w ≠ declarerPos ∧ w ≠ declarerPos.partner
       then (gs.kitty.map Card.getPointValue).sum else 0
     | none => 0)

/-- Modelled from the spec (claim C4): defenders win exactly when their total
reaches the contract. -/
def specWinnerTeam (gs : GameState) (declarerPos : PlayerPosition) : String :=
  if (specDefendersTotal gs declarerPos : Int) ≥ gs.contract then "defenders" else "declarer"

/-- First trick of the C4 scenario (Hearts trump): Spades led, East's Ace
wins 30 points. -/
def c4T1 : Trick :=
  (addPlay (addPlay (addPlay (addPlay (newTrick "g4_trick_1" .north)
    .north (newSingle (mkCard .spades 13 1)) .hearts).1
    .east (newSingle (mkCard .spades 14 1)) .hearts).1
    .south (newSingle (mkCard .spades 13 2)) .hearts).1
    .west (newSingle (mkCard .spades 10 1)) .hearts).1

/-- Second trick: trump (Hearts) led by East, East's Ace wins 30 points. -/
def c4T2 : Trick :=
  (addPlay (addPlay (addPlay (addPlay (newTrick "g4_trick_2" .east)
    .east (newSingle (mkCard .hearts 14 1)) .hearts).1
    .south (newSingle (mkCard .hearts 13 1)) .hearts).1
    .west (newSingle (mkCard .hearts 13 2)) .hearts).1
    .north (newSingle (mkCard .hearts 10 1)) .hearts).1

/-- Third trick: Diamonds led by East, East's Ace wins 30 points. -/
def c4T3 : Trick :=
  (addPlay (addPlay (addPlay (addPlay (newTrick "g4_trick_3" .east)
    .east (newSingle (mkCard .diamonds 14 1)) .hearts).1
    .south (newSingle (mkCard .diamonds 13 1)) .hearts).1
    .west (newSingle (mkCard .diamonds 13 2)) .hearts).1
    .north (newSingle (mkCard .diamonds 10 1)) .hearts).1

/-- Fourth (last) trick: Clubs led by East, East's Ace wins 20 points. -/
def c4T4 : Trick :=
  (addPlay (addPlay (addPlay (addPlay (newTrick "g4_trick_4" .east)
    .east (newSingle (mkCard .clubs 14 1)) .hearts).1
    .south (newSingle (mkCard .clubs 5 1)) .hearts).1
    .west (newSingle (mkCard .clubs 5 2)) .hearts).1
    .north (newSingle (mkCard .clubs 10 1)) .hearts).1

/-- The C4 game state reaching final scoring: North declared at contract 95,
East (a defender) won four tricks worth 110 points in total and the last
trick; the kitty holds no points. -/
def c4GS : GameState :=
  { id := "g4", roomID := "r4", phase := .playing,
    players := [⟨"p0", "alice", .north, [], false⟩,
                ⟨"p1", "bob", .east, [], false⟩,
                ⟨"p2", "carol", .south, [], false⟩,
                ⟨"p3", "dave", .west, [], false⟩],
    currentPlayerTurn := .east, declarer := some .north,
    trumpSuit := some .hearts, contract := 95, currentBid := 95,
    bidHistory := [⟨"p0", 95, false⟩, ⟨"p1", 0, true⟩, ⟨"p2", 0, true⟩, ⟨"p3", 0, true⟩],
    consecutivePasses := 3, currentTrick := none,
    tricks := [c4T1, c4T2, c4T3, c4T4],
    kitty := [mkCard .clubs 3 1, mkCard .clubs 4 1, mkCard .clubs 6 1,
              mkCard .clubs 7 1, mkCard .clubs 8 1, mkCard .clubs 9 1,
              mkCard .clubs 11 1, mkCard .clubs 12 1],
    winnerTeam := none }

/-- Claim C4 is false on the code: the defender East won 110 points and the
last trick, so by the claim the defenders reach the contract of 95 and win —
but CalculateFinalScore hands the seat-name string `"East"` that
`completeTrick` stored in `Winner` to GetPlayer, which matches player IDs,
finds nobody, credits the defenders 0 points and the kitty to no one, and
declares the declarer side the winner. -/
theorem finalScore_ignores_defender_tricks :
    (c4GS.tricks.map (fun t => t.winner)) = ["East", "East", "East", "East"] ∧
    specDefendersPoints c4GS .north = 110 ∧
    specWinnerTeam c4GS .north = "defenders" ∧
    findPlayer c4GS.players "East" = none ∧
    (calculateFinalScore c4GS).winnerTeam = some "declarer" ∧
    (calculateFinalScore c4GS).phase = .ended := by decide

/-- A fresh four-player match about to be dealt (C7 scenario). -/
def c7GS : GameState :=
  { id := "g7", roomID := "r7", phase := .waiting,
    players := [⟨"p0", "alice", .north, [], false⟩,
                ⟨"p1", "bob", .east, [], false⟩,
                ⟨"p2", "carol", .south, [], false⟩,
                ⟨"p3", "dave", .west, [], false⟩],
    currentPlayerTurn := .north, declarer := none,
    trumpSuit := none, contract := 0, currentBid := 125,
    bidHistory := [], consecutivePasses := 0, currentTrick := none,
    tricks := [], kitty := [], winnerTeam := none }

/-- Claim C7 is false on the code: dealing the (unshuffled) full deck, hand 1
is not the round-robin selection of positions 4k+1 — Deal hands each player
25 consecutive cards off the top instead. -/
theorem deal_roundRobin_counterexample :
    ((dealCards c7GS newDeck).1.players.getD 1 defaultPlayer).hand ≠
      (List.range 25).map (fun k => newDeck.getD (4 * k + 1) defaultCard) := by
  decide

/-- Claim C7 amended: for every 108-card shuffled order, dealing succeeds and
hand i (i in 0..3) receives exactly the 25 consecutive cards at positions
[25i, 25i+25) of the shuffled order, the final eight cards form the kitty,
and the phase becomes Bidding. -/
theorem dealCards_consecutive_blocks (gs : GameState) (deck : List Card)
    (hphase : gs.phase = .waiting) (hlen : gs.players.length = 4)
    (hdeck : deck.length = 108) :
    (dealCards gs deck).2 = true ∧
    (∀ i, i < 4 → ((dealCards gs deck).1.players.getD i defaultPlayer).hand
        = (gs.players.getD i defaultPlayer).hand ++ ((deck.drop (25 * i)).take 25)) ∧
    (dealCards gs deck).1.kitty = (deck.drop 100).take 8 ∧
    (dealCards gs deck).1.phase = .bidding := by
  have e1 : deal deck 25 = some (deck.take 25, deck.drop 25) := by
    unfold deal; rw [if_neg (by omega)]
  have e2 : deal (deck.drop 25) 25 = some ((deck.drop 25).take 25, deck.drop 50) := by
    unfold deal
    rw [if_neg (by rw [List.length_drop, hdeck]; norm_num), List.drop_drop]
  have e3 : deal (deck.drop 50) 25 = some ((deck.drop 50).take 25, deck.drop 75) := by
    unfold deal
    rw [if_neg (by rw [List.length_drop, hdeck]; norm_num), List.drop_drop]
  have e4 : deal (deck.drop 75) 25 = some ((deck.drop 75).take 25, deck.drop 100) := by
    unfold deal
    rw [if_neg (by rw [List.length_drop, hdeck]; norm_num), List.drop_drop]
  have e5 : deal (deck.drop 100) 8 = some ((deck.drop 100).take 8, deck.drop 108) := by
    unfold deal
    rw [if_neg (by rw [List.length_drop, hdeck]; norm_num), List.drop_drop]
  obtain ⟨gid, grm, gph, gpl, gct, gdc, gts, gco, gcb, gbh, gcp, gtr, gtk, gki, gwt⟩ := gs
  simp only at hphase hlen ⊢
  subst hphase
  rcases gpl with _ | ⟨a, rest⟩; · simp at hlen
  rcases rest with _ | ⟨b, rest⟩; · simp at hlen
  rcases rest with _ | ⟨c, rest⟩; · simp at hlen
  rcases rest with _ | ⟨d, rest⟩
  · simp at hlen
  rcases rest with _ | ⟨e, rest⟩
  · refine ⟨?_, ?_, ?_, ?_⟩
    · simp [dealCards, e1, e2, e3, e4, e5, giveCards]
    · intro i hi
      interval_cases i <;>
        simp [dealCards, e1, e2, e3, e4, e5, giveCards, List.drop_drop] <;>
        try norm_num
    · simp [dealCards, e1, e2, e3, e4, e5, giveCards, List.drop_drop]
      try norm_num
    · simp [dealCards, e1, e2, e3, e4, e5, giveCards]
  · simp at hlen

/-- Witness for the amended C7 theorem at the fresh match and the unshuffled
deck: hand 1 is the block of positions 25 … 49. -/
theorem dealCards_consecutive_blocks_witness :
    (dealCards c7GS newDeck).2 = true ∧
    ((dealCards c7GS newDeck).1.players.getD 1 defaultPlayer).hand
      = (c7GS.players.getD 1 defaultPlayer).hand ++ ((newDeck.drop (25 * 1)).take 25) ∧
    (dealCards c7GS newDeck).1.kitty = (newDeck.drop 100).take 8 ∧
    (dealCards c7GS newDeck).1.phase = .bidding := by
  have h := dealCards_consecutive_blocks c7GS newDeck rfl (by decide) (by decide)
  exact ⟨h.1, h.2.1 1 (by norm_num), h.2.2.1, h.2.2.2⟩

lemma getD_set_self {α : Type} (l : List α) (i : Nat) (a d : α) (h : i < l.length) :
    (l.set i a).getD i d = a := by
  induction l generalizing i with
  | nil => simp at h
  | cons x t ih =>
    cases i with
    | zero => simp
    | succ j => simpa using ih j (by simpa using h)

/-- Replacing a seat entry by a player with the same ID and position (such as
the same player marked as passed) changes neither which player GetPlayer
finds for any ID nor that player's position. -/
lemma findPlayer_set_proj (l : List Player) (i : Nat) (p' : Player) (pid : String)
    (hid : p'.id = (l.getD i defaultPlayer).id)
    (hpos : p'.position = (l.getD i defaultPlayer).position) :
    Option.map (fun p => p.position) (findPlayer (l.set i p') pid)
    = Option.map (fun p => p.position) (findPlayer l pid) := by
  induction l generalizing i with
  | nil => simp [List.set]
  | cons x t ih =>
    cases i with
    | zero =>
      simp only [List.getD_cons_zero] at hid hpos
      by_cases hx : x.id = pid
      · simp [findPlayer, hx, hid, hpos]
      · simp [findPlayer, hx, hid]
    | succ j =>
      simp only [List.getD_cons_succ] at hid hpos
      by_cases hx : x.id = pid <;> simp [findPlayer, hx, ih j hid hpos]

/-- The declarer scan skips any leading block of pass entries. -/
lemma scanDeclarer_append_passed (players : List Player) (l rest : List BidInfo)
    (h : ∀ x ∈ l, x.isPassed = true) :
    scanDeclarer players (l ++ rest) = scanDeclarer players rest := by
  induction l with
  | nil => rfl
  | cons e t ih =>
    have he := h e (by simp)
    simp only [List.cons_append, scanDeclarer, he, if_true]
    exact ih (fun x hx => h x (by simp [hx]))

/-- The declarer scan over pass entries only finds nothing. -/
lemma scanDeclarer_all_passed (players : List Player) (l : List BidInfo)
    (h : ∀ x ∈ l, x.isPassed = true) :
    scanDeclarer players l = none := by
  have := scanDeclarer_append_passed players l [] h
  simpa using this

/-- Claim C8: in the bidding phase, a pass that raises the consecutive-pass
count to at least 3 while the history holds a non-pass entry terminates the
auction: the declarer becomes the seat of the most recent non-pass entry,
the contract becomes that entry's bid amount, the phase becomes
TrumpDeclaration and the turn moves to the declarer. -/
theorem passBid_terminates_bidding (gs : GameState) (pid : String)
    (e : BidInfo) (h1 h2 : List BidInfo) (q : Player)
    (hphase : gs.phase = .bidding)
    (hturn : (getCurrentPlayer gs).id = pid)
    (hnp : (getCurrentPlayer gs).hasPassed = false)
    (hcp : 2 ≤ gs.consecutivePasses)
    (hhist : gs.bidHistory = h1 ++ e :: h2)
    (he : e.isPassed = false)
    (h2p : ∀ x ∈ h2, x.isPassed = true)
    (hq : findPlayer gs.players e.playerID = some q) :
    (passBid gs pid).2 = true ∧
    (passBid gs pid).1.phase = .trumpDeclaration ∧
    (passBid gs pid).1.declarer = some q.position ∧
    (passBid gs pid).1.currentPlayerTurn = q.position ∧
    (passBid gs pid).1.contract = e.amount := by
  have hbal : 3 ≤ gs.consecutivePasses + 1 := by omega
  obtain ⟨q2, hq2, hq2pos⟩ :
      ∃ q2, findPlayer (gs.players.set gs.currentPlayerTurn.toNat
        { getCurrentPlayer gs with hasPassed := true }) e.playerID = some q2
        ∧ q2.position = q.position := by
    have hproj := findPlayer_set_proj gs.players gs.currentPlayerTurn.toNat
      { getCurrentPlayer gs with hasPassed := true } e.playerID rfl rfl
    rw [hq] at hproj
    cases hfp : findPlayer (gs.players.set gs.currentPlayerTurn.toNat
        { getCurrentPlayer gs with hasPassed := true }) e.playerID with
    | none =>
      rw [hfp] at hproj; simp at hproj
    | some q2 =>
      rw [hfp] at hproj
      simp at hproj
      exact ⟨q2, rfl, hproj⟩
  have hscan : scanDeclarer
      (gs.players.set gs.currentPlayerTurn.toNat { getCurrentPlayer gs with hasPassed := true })
      ((⟨pid, 0, true⟩ : BidInfo) :: gs.bidHistory.reverse) = some (q2, e.amount) := by
    have hstep : scanDeclarer
        (gs.players.set gs.currentPlayerTurn.toNat { getCurrentPlayer gs with hasPassed := true })
        ((⟨pid, 0, true⟩ : BidInfo) :: gs.bidHistory.reverse)
        = scanDeclarer
          (gs.players.set gs.currentPlayerTurn.toNat { getCurrentPlayer gs with hasPassed := true })
          gs.bidHistory.reverse := by
      simp [scanDeclarer]
    rw [hstep, hhist]
    have hshape : (h1 ++ e :: h2).reverse = h2.reverse ++ e :: h1.reverse := by
      simp [List.reverse_append]
    rw [hshape]
    rw [scanDeclarer_append_passed _ _ _ (fun x hx => h2p x (List.mem_reverse.mp hx))]
    simp [scanDeclarer, he, hq2]
  simp only [getCurrentPlayer, getPlayerByPosition, List.getD_eq_getElem?_getD]
    at hturn hnp hscan
  rw [hturn] at hscan
  simp [passBid, hphase, hturn, hnp, hbal, hscan, hq2pos, setPlayer,
    getCurrentPlayer, getPlayerByPosition]

/-- Witness game for C8 and C10 scenarios: a four-seat table. -/
def c8Players : List Player :=
  [⟨"p0", "alice", .north, [], false⟩,
   ⟨"p1", "bob", .east, [], true⟩,
   ⟨"p2", "carol", .south, [], true⟩,
   ⟨"p3", "dave", .west, [], false⟩]

/-- C8 witness state: North bid 120, East and South passed, West to act. -/
def c8GS : GameState :=
  { id := "g8", roomID := "r8", phase := .bidding,
    players := c8Players,
    currentPlayerTurn := .west, declarer := none,
    trumpSuit := none, contract := 0, currentBid := 120,
    bidHistory := [⟨"p0", 120, false⟩, ⟨"p1", 0, true⟩, ⟨"p2", 0, true⟩],
    consecutivePasses := 2, currentTrick := none,
    tricks := [], kitty := [], winnerTeam := none }

/-- Witness for C8: West's pass is the third consecutive pass after North's
bid of 120, so North becomes declarer at contract 120 and the phase moves to
TrumpDeclaration with the turn on North. -/
theorem passBid_terminates_bidding_witness :
    (passBid c8GS "p3").2 = true ∧
    (passBid c8GS "p3").1.phase = .trumpDeclaration ∧
    (passBid c8GS "p3").1.declarer = some .north ∧
    (passBid c8GS "p3").1.currentPlayerTurn = .north ∧
    (passBid c8GS "p3").1.contract = 120 :=
  passBid_terminates_bidding c8GS "p3" ⟨"p0", 120, false⟩ []
    [⟨"p1", 0, true⟩, ⟨"p2", 0, true⟩] ⟨"p0", "alice", .north, [], false⟩
    rfl rfl rfl (by decide) rfl rfl (by decide) rfl

/-- Claim C10: in the bidding phase, a third consecutive pass with no bid in
the history succeeds but leaves the phase Bidding, the declarer unset and
the turn on the seat that just passed; every subsequent PlaceBid or PassBid
on the resulting state fails, whoever issues it. -/
theorem passBid_without_any_bid_stalls (gs : GameState) (pid : String)
    (hphase : gs.phase = .bidding)
    (hlen : gs.players.length = 4)
    (hturn : (getCurrentPlayer gs).id = pid)
    (hnp : (getCurrentPlayer gs).hasPassed = false)
    (hcp : 2 ≤ gs.consecutivePasses)
    (hall : ∀ x ∈ gs.bidHistory, x.isPassed = true)
    (hdecl : gs.declarer = none) :
    (passBid gs pid).2 = true ∧
    (passBid gs pid).1.phase = .bidding ∧
    (passBid gs pid).1.declarer = none ∧
    (passBid gs pid).1.currentPlayerTurn = gs.currentPlayerTurn ∧
    (∀ pid2 amount, (placeBid (passBid gs pid).1 pid2 amount).2 = false) ∧
    (∀ pid2, (passBid (passBid gs pid).1 pid2).2 = false) := by
  have hbal : 3 ≤ gs.consecutivePasses + 1 := by omega
  have hlt : gs.currentPlayerTurn.toNat < gs.players.length := by
    rw [hlen]; cases gs.currentPlayerTurn <;> simp [PlayerPosition.toNat]
  have hscan : scanDeclarer
      (gs.players.set gs.currentPlayerTurn.toNat { getCurrentPlayer gs with hasPassed := true })
      ((⟨pid, 0, true⟩ : BidInfo) :: gs.bidHistory.reverse) = none := by
    apply scanDeclarer_all_passed
    intro x hx
    rcases List.mem_cons.mp hx with rfl | hx
    · rfl
    · exact hall x (List.mem_reverse.mp hx)
  have hres : passBid gs pid = ({ gs with
      players := gs.players.set gs.currentPlayerTurn.toNat
        { getCurrentPlayer gs with hasPassed := true },
      bidHistory := gs.bidHistory ++ [⟨pid, 0, true⟩],
      consecutivePasses := gs.consecutivePasses + 1 }, true) := by
    simp only [getCurrentPlayer, getPlayerByPosition, List.getD_eq_getElem?_getD]
      at hturn hnp hscan ⊢
    rw [hturn] at hscan
    simp [passBid, hphase, hturn, hnp, hbal, hscan, setPlayer,
      getCurrentPlayer, getPlayerByPosition]
  rw [hres]
  have hcur : getCurrentPlayer ({ gs with
      players := gs.players.set gs.currentPlayerTurn.toNat
        { getCurrentPlayer gs with hasPassed := true },
      bidHistory := gs.bidHistory ++ [⟨pid, 0, true⟩],
      consecutivePasses := gs.consecutivePasses + 1 } : GameState)
      = { getCurrentPlayer gs with hasPassed := true } :=
    getD_set_self gs.players gs.currentPlayerTurn.toNat _ defaultPlayer hlt
  rw [hphase] at hcur
  refine ⟨rfl, hphase, hdecl, rfl, ?_, ?_⟩
  · intro pid2 amount
    by_cases hid : ({ getCurrentPlayer gs with hasPassed := true } : Player).id = pid2 <;>
      simp [placeBid, hcur, hid, hphase]
  · intro pid2
    by_cases hid : ({ getCurrentPlayer gs with hasPassed := true } : Player).id = pid2 <;>
      simp [passBid, hcur, hid, hphase]

/-- C10 witness state: no bids, North and East already passed, South to act
with the pass count at 2. -/
def c10GS : GameState :=
  { id := "g10", roomID := "r10", phase := .bidding,
    players := [⟨"p0", "alice", .north, [], true⟩,
                ⟨"p1", "bob", .east, [], true⟩,
                ⟨"p2", "carol", .south, [], false⟩,
                ⟨"p3", "dave", .west, [], false⟩],
    currentPlayerTurn := .south, declarer := none,
    trumpSuit := none, contract := 0, currentBid := 125,
    bidHistory := [⟨"p0", 0, true⟩, ⟨"p1", 0, true⟩],
    consecutivePasses := 2, currentTrick := none,
    tricks := [], kitty := [], winnerTeam := none }

/-- Witness for C10: South's third consecutive pass with no bid succeeds but
stalls the match — phase and turn unchanged, no declarer, and neither West's
bid of 120 nor any further pass attempt by any seat can succeed. -/
theorem passBid_without_any_bid_stalls_witness :
    (passBid c10GS "p2").2 = true ∧
    (passBid c10GS "p2").1.phase = .bidding ∧
    (passBid c10GS "p2").1.declarer = none ∧
    (passBid c10GS "p2").1.currentPlayerTurn = c10GS.currentPlayerTurn ∧
    (placeBid (passBid c10GS "p2").1 "p3" 120).2 = false ∧
    (passBid (passBid c10GS "p2").1 "p3").2 = false ∧
    (placeBid (passBid c10GS "p2").1 "p2" 120).2 = false ∧
    (passBid (passBid c10GS "p2").1 "p2").2 = false := by
  have h := passBid_without_any_bid_stalls c10GS "p2" rfl (by decide) rfl rfl
    (by decide) (by decide) rfl
  exact ⟨h.1, h.2.1, h.2.2.1, h.2.2.2.1, h.2.2.2.2.1 "p3" 120, h.2.2.2.2.2 "p3",
    h.2.2.2.2.1 "p2" 120, h.2.2.2.2.2 "p2"⟩

end ChineseBridge
